import Mathlib

/-!
Shallow embedding of the TradingViewMCP pipeline
(`src/mcp_server/main.py` and `src/mcp_server/constants.py`).

Scalar values flowing through the pipeline (JSON payload cells, pandas
DataFrame cells) are modelled by `Cell`: Python `None` and float NaN are
collapsed into `Cell.null` (both satisfy `pd.isna` and both are written as an
empty CSV field), numbers are rationals, and strings / booleans are as in the
source. Effectful parts (HTTP fetch, the `tempDir` file system) are modelled
by explicit state passing over a `World` record that counts network fetches
and maps file paths to CSV contents.
-/

namespace TradingViewMCP

/-- A scalar value as it appears in the upstream JSON `d` arrays and in
DataFrame cells. `null` covers both Python `None` and float NaN. -/
inductive Cell where
  | null
  | num (q : ℚ)
  | boolean (b : Bool)
  | str (s : String)
deriving DecidableEq, Repr

/-- `COLUMNS` from `constants.py`: the declared column order of the upstream
request and of every built record. -/
def COLUMNS : List String :=
  ["name", "description", "logoid", "update_mode", "type", "typespecs",
   "close", "pricescale", "minmov", "fractional", "minmove2", "currency",
   "change", "volume", "relative_volume_10d_calc", "market_cap_basic",
   "fundamental_currency_code", "price_earnings_ttm",
   "earnings_per_share_diluted_ttm",
   "earnings_per_share_diluted_yoy_growth_ttm", "dividends_yield_current",
   "sector.tr", "market", "sector", "recommendation_mark", "open", "high",
   "low", "VWAP", "premarket_open", "premarket_high", "premarket_low",
   "premarket_close", "postmarket_open", "postmarket_high", "postmarket_low",
   "postmarket_close", "SMA20", "SMA50", "SMA100", "EMA20", "EMA50",
   "EMA200", "RSI", "MACD.macd", "MACD.signal", "BB.upper", "BB.basis",
   "BB.lower", "ATR", "gap", "Pivot.M.Classic.R1", "Pivot.M.Classic.S1",
   "Perf.W", "Perf.1M", "Perf.3M", "beta_1_year",
   "relative_volume_10d_calc|1W", "average_volume_10d_calc",
   "average_volume_30d_calc", "Candle.3BlackCrows", "Candle.3WhiteSoldiers",
   "Candle.AbandonedBaby.Bearish", "Candle.AbandonedBaby.Bullish",
   "Candle.Doji", "Candle.Doji.Dragonfly", "Candle.Doji.Gravestone",
   "Candle.Engulfing.Bearish", "Candle.Engulfing.Bullish",
   "Candle.EveningStar", "Candle.Hammer", "Candle.HangingMan",
   "Candle.Harami.Bearish", "Candle.Harami.Bullish", "Candle.InvertedHammer",
   "Candle.Kicking.Bearish", "Candle.Kicking.Bullish",
   "Candle.LongShadow.Lower", "Candle.LongShadow.Upper",
   "Candle.Marubozu.Black", "Candle.Marubozu.White", "Candle.MorningStar",
   "Candle.ShootingStar", "Candle.SpinningTop.Black",
   "Candle.SpinningTop.White", "Candle.TriStar.Bearish",
   "Candle.TriStar.Bullish", "exchange", "Recommend.All"]

/-- `TECHNICAL_COLUMNS` from `constants.py` (declared but unused by
`main.py`). -/
def TECHNICAL_COLUMNS : List String :=
  ["SMA20", "SMA50", "SMA100", "EMA20", "EMA50", "EMA200", "RSI",
   "MACD.macd", "MACD.signal", "BB.upper", "BB.basis", "BB.lower", "ATR",
   "Pivot.M.Classic.R1", "Pivot.M.Classic.S1"]

/-- `RECOMMENDATION_THRESHOLDS` from `main.py` lines 23-29; a Python dict
iterates in insertion order, so an association list is faithful. The bounds
are written with `mkRat` (e.g. `mkRat (-1) 2` is −0.5) to keep the whole
pipeline evaluable by `decide`. -/
def RECOMMENDATION_THRESHOLDS : List (String × ℚ × ℚ) :=
  [("strong_sell", (-1, mkRat (-1) 2)),
   ("sell", (mkRat (-1) 2, mkRat (-1) 10)),
   ("neutral", (mkRat (-1) 10, mkRat 1 10)),
   ("buy", (mkRat 1 10, mkRat 1 2)),
   ("strong_buy", (mkRat 1 2, 1))]

/-- The `for category, (min_val, max_val) in RECOMMENDATION_THRESHOLDS.items()`
loop of `categorize_recommendation`: return the first category (in dict
order) whose inclusive band `min_val <= value <= max_val` contains `q`. -/
def scanBands (q : ℚ) : List (String × ℚ × ℚ) → Option String
  | [] => none
  | (c, lo, hi) :: rest => if lo ≤ q ∧ q ≤ hi then some c else scanBands q rest

/-- `categorize_recommendation` from `main.py` lines 43-58. Python booleans
are instances of `int` (`True == 1`, `False == 0`), so they pass the
`isinstance(value, (int, float))` guard and are compared numerically; `None`
and NaN fail the guard / satisfy `pd.isna` and give `"unknown"`; strings are
not numeric and give `"unknown"`. -/
def categorize_recommendation (v : Cell) : String :=
  match v with
  | .null => "unknown"
  | .str _ => "unknown"
  | .boolean b => (scanBands (if b then 1 else 0) RECOMMENDATION_THRESHOLDS).getD "unknown"
  | .num q => (scanBands q RECOMMENDATION_THRESHOLDS).getD "unknown"

/-- Modelled from the spec, §4.3 threshold table: the canonical partition of
the score range, written exactly as the table's rows (used only to compare
the source's classifier against the spec's words). -/
def spec_category (v : Cell) : String :=
  match v with
  | .num q =>
    if -1 ≤ q ∧ q ≤ -1/2 then "strong_sell"
    else if -1/2 < q ∧ q ≤ -1/10 then "sell"
    else if -1/10 < q ∧ q ≤ 1/10 then "neutral"
    else if 1/10 < q ∧ q ≤ 1/2 then "buy"
    else if 1/2 < q ∧ q ≤ 1 then "strong_buy"
    else "unknown"
  | _ => "unknown"

/-- One element of the upstream response's `data` array: it may or may not
carry a `d` field holding the instrument's ordered value array. -/
structure DataRow where
  d : Option (List Cell)
deriving DecidableEq, Repr

/-- The shape-validation and row-extraction steps of `fetch_trading_data`
(`main.py` lines 79-90), acting on the decoded response body. `none` models
a decoded object with no `"data"` key (the code's
`if not data or "data" not in data` — for a dict, an empty dict also lacks
the key, so absence of the key is the exact failure condition). -/
def normalize (resp : Option (List DataRow)) : Except String (List (List Cell)) :=
  match resp with
  | none => .error "Invalid response format from API"
  | some api_data =>
    if api_data.isEmpty then .error "No data returned from API"
    else
      let rows := api_data.filterMap DataRow.d
      if rows.isEmpty then .error "No valid data rows found"
      else .ok rows

/-- The width pandas assigns to a list-of-lists payload: the maximum row
length. -/
def maxRowLen (rows : List (List Cell)) : ℕ :=
  rows.foldr (fun r a => max r.length a) 0

/-- Pad a row on the right with nulls up to width `n` (pandas fills missing
trailing positions of short rows with NaN). -/
def padRow (n : ℕ) (r : List Cell) : List Cell :=
  r ++ List.replicate (n - r.length) Cell.null

/-- `pd.DataFrame(rows, columns=COLUMNS)` in `fetch_trading_data`
(`main.py` line 92): pandas pads rows shorter than the widest row with NaN,
then requires the resulting width to equal `len(columns)`; on mismatch it
raises `ValueError`, which line 109 wraps into
`TradingDataError("Data processing failed: ...")`. -/
def buildRecords (rows : List (List Cell)) : Except String (List (List Cell)) :=
  if maxRowLen rows = COLUMNS.length then
    .ok (rows.map (padRow COLUMNS.length))
  else
    .error "Data processing failed"

/-- Position of the `Recommend.All` column in the declared order (the
`df["Recommend.All"]` column selection). -/
def recAllIdx : ℕ := COLUMNS.indexOf "Recommend.All"

/-- `df["recommendation_category"] = df["Recommend.All"].apply(categorize_recommendation)`
(`main.py` lines 95-97): append the derived category to each record. -/
def addCategoryColumn (recs : List (List Cell)) : List (List Cell) :=
  recs.map (fun r => r ++ [Cell.str (categorize_recommendation (r.getD recAllIdx Cell.null))])

/-- A built/loaded DataFrame: its column names in order, and one cell row per
record, positionally aligned with the header. -/
structure Snapshot where
  header : List String
  records : List (List Cell)
deriving DecidableEq, Repr

/-- The pure data pipeline of `fetch_trading_data` after the HTTP response is
decoded: shape validation, DataFrame construction, derived category column. -/
def buildSnapshot (resp : Option (List DataRow)) : Except String Snapshot :=
  match normalize resp with
  | .error e => .error e
  | .ok rows =>
    match buildRecords rows with
    | .error e => .error e
    | .ok recs => .ok ⟨COLUMNS ++ ["recommendation_category"], addCategoryColumn recs⟩

/-! ### CSV persistence (`df.to_csv` / `pd.read_csv`)

`to_csv(index=False)` writes the header row first, then one line per record;
cell-level quoting (fields containing separators or quotes) is inverted
exactly by the reader, so the model works at the level of already-unquoted
field strings. `read_csv` re-infers types per column: default NA tokens
become NaN; a column whose remaining fields all parse as numbers becomes
numeric; a column whose remaining fields are all boolean tokens becomes
boolean; anything else stays a string column. -/

/-- The default NA tokens of `pd.read_csv`. -/
def naTokens : List String :=
  ["", "#N/A", "#N/A N/A", "#NA", "-1.#IND", "-1.#QNF", "-NaN", "-nan",
   "1.#IND", "1.#QNF", "<NA>", "N/A", "NA", "NULL", "NaN", "None", "n/a",
   "nan", "null"]

def isNA (s : String) : Bool := naTokens.contains s

/-- Field strings `read_csv` treats as IEEE infinities (numeric). -/
def infTokens : List String :=
  ["inf", "Inf", "INF", "+inf", "+Inf", "+INF", "-inf", "-Inf", "-INF",
   "Infinity", "+Infinity", "-Infinity", "infinity", "+infinity", "-infinity"]

/-- Field strings `read_csv` parses as booleans. -/
def boolTokens : List String :=
  ["True", "TRUE", "true", "False", "FALSE", "false"]

def trueTokens : List String := ["True", "TRUE", "true"]

/-- Accumulate decimal digits; used only on all-digit character lists. -/
def charsToNat (cs : List Char) : ℕ :=
  cs.foldl (fun a c => a * 10 + (c.toNat - 48)) 0

/-- Parse an optionally signed all-digit suffix (an exponent), consuming the
whole remainder. -/
def parseSignedInt (cs : List Char) : Option ℤ :=
  let p : ℤ × List Char :=
    match cs with
    | '-' :: r => (-1, r)
    | '+' :: r => (1, r)
    | _ => (1, cs)
  if p.2 ≠ [] ∧ p.2.all Char.isDigit then some (p.1 * charsToNat p.2) else none

/-- Parse the optional exponent part; `none` means trailing garbage. -/
def parseExpPart (cs : List Char) : Option ℤ :=
  match cs with
  | [] => some 0
  | 'e' :: r => parseSignedInt r
  | 'E' :: r => parseSignedInt r
  | _ => none

/-- Decimal number parser modelling which field strings `read_csv` converts
to numbers: optional sign, digits with an optional fractional part, optional
exponent. The value is assembled with `Rat.divInt` on integer mantissa and
power-of-ten denominator, avoiding rational-field operations so the parser
evaluates under `decide`. -/
def parseNum (s : String) : Option ℚ :=
  let cs := s.toList
  let p : Bool × List Char :=
    match cs with
    | '-' :: r => (true, r)
    | '+' :: r => (false, r)
    | _ => (false, cs)
  let ip := p.2.takeWhile Char.isDigit
  let cs2 := p.2.dropWhile Char.isDigit
  let q : List Char × List Char :=
    match cs2 with
    | '.' :: r => (r.takeWhile Char.isDigit, r.dropWhile Char.isDigit)
    | _ => ([], cs2)
  if ip.isEmpty && q.1.isEmpty then none
  else
    match parseExpPart q.2 with
    | none => none
    | some e =>
      let mant : ℕ := charsToNat ip * 10 ^ q.1.length + charsToNat q.1
      let sgn : ℤ := if p.1 then -1 else 1
      match e with
      | .ofNat k => some (Rat.divInt (sgn * ((mant * 10 ^ k : ℕ) : ℤ)) ((10 ^ q.1.length : ℕ) : ℤ))
      | .negSucc k =>
        some (Rat.divInt (sgn * (mant : ℤ)) (((10 ^ q.1.length * 10 ^ (k + 1) : ℕ) : ℤ)))

/-- A field string `read_csv` would take as numeric. -/
def isNumTok (s : String) : Bool := (parseNum s).isSome || infTokens.contains s

/-- The fractional digits of `r / d`, most significant first, with `fuel`
bounding the length (Python float repr emits at most 17 significant digits;
every cell this model ever writes is an exact short decimal). -/
def fracDigits (r d : ℕ) : ℕ → String
  | 0 => ""
  | fuel + 1 =>
    if r = 0 then ""
    else toString (r * 10 / d) ++ fracDigits (r * 10 % d) d fuel

/-- Render a rational the way the written CSV shows it: integers bare,
non-integers in decimal notation. -/
def ratToCsvString (q : ℚ) : String :=
  (if q < 0 then "-" else "") ++
    (if q.den = 1 then toString q.num.natAbs
     else toString (q.num.natAbs / q.den) ++ "." ++
       fracDigits (q.num.natAbs % q.den) q.den 17)

/-- How `to_csv` renders one cell: missing values as an empty field, booleans
as `True`/`False`, strings verbatim (modulo invertible quoting). -/
def encodeCell (c : Cell) : String :=
  match c with
  | .null => ""
  | .num q => ratToCsvString q
  | .boolean b => if b then "True" else "False"
  | .str s => s

/-- Column `j` of the data lines, as `read_csv` sees it. -/
def columnOf (lines : List (List String)) (j : ℕ) : List String :=
  lines.map (fun r => r.getD j "")

/-- A column is numeric when every non-NA field parses as a number. -/
def colIsNumeric (col : List String) : Bool :=
  (col.filter (fun s => !isNA s)).all isNumTok

/-- A column is boolean when every non-NA field is a boolean token. -/
def colIsBool (col : List String) : Bool :=
  (col.filter (fun s => !isNA s)).all (fun s => boolTokens.contains s)

/-- `read_csv` type inference for the field `s` sitting in column `j`: NA
tokens become null; in a numeric column fields parse to numbers (infinities
fall outside the rational cell model and are mapped to null; no theorem
below depends on that branch); in a boolean column to booleans; otherwise
the field stays a string. -/
def decodeCell (lines : List (List String)) (j : ℕ) (s : String) : Cell :=
  if isNA s then .null
  else if colIsNumeric (columnOf lines j) then
    match parseNum s with
    | some q => .num q
    | none => .null
  else if colIsBool (columnOf lines j) then .boolean (trueTokens.contains s)
  else .str s

/-- Decode all data lines with per-column type inference. -/
def decodeLines (lines : List (List String)) : List (List Cell) :=
  lines.map (fun r => r.mapIdx (fun j s => decodeCell lines j s))

/-- `df.to_csv(output_path, index=False)`: header line first, then one line
per record. -/
def persistFile (snap : Snapshot) : List (List String) :=
  snap.header :: snap.records.map (fun r => r.map encodeCell)

/-- `pd.read_csv(csv_path)`: first line is the header, the rest are decoded
with per-column type inference. -/
def loadFile (f : List (List String)) : Snapshot :=
  ⟨f.headD [], decodeLines f.tail⟩

/-! ### Query layer and effectful pipeline -/

/-- One entry of `to_dict(orient="records")`: the column names paired with
the row's cells. -/
abbrev Record : Type := List (String × Cell)

/-- Pandas elementwise `== tech_sig` on a loaded cell: a string cell compares
by content, every other dtype compares unequal to a string. -/
def cellEqStr (c : Cell) (s : String) : Bool :=
  match c with
  | .str t => t == s
  | _ => false

/-- The pure part of `load_and_filter_stocks` (`main.py` lines 126-138) once
the file's contents are in hand: `read_csv`, the
`recommendation_category` column check, the `== tech_sig` filter, and
`to_dict(orient="records")`. -/
def load_and_filter_file (f : List (List String)) (tech_sig : String) :
    Except String (List Record) :=
  let snap := loadFile f
  if !snap.header.contains "recommendation_category" then
    .error "Missing recommendation_category column"
  else
    let j := snap.header.indexOf "recommendation_category"
    let filtered := snap.records.filter (fun r => cellEqStr (r.getD j Cell.null) tech_sig)
    .ok (filtered.map (fun r => snap.header.zip r))

/-- World state threaded through the effectful pipeline: the `tempDir` file
system and a count of network round trips performed by `requests.post`. -/
structure World where
  files : String → Option (List (List String))
  fetchCount : ℕ

/-- `TEMP_DIR / f"{output_file}.csv"`. -/
def csvPath (output_file : String) : String := "tempDir/" ++ output_file ++ ".csv"

/-- `fetch_trading_data` (`main.py` lines 61-105): unconditionally issues the
POST request (counted first, as line 74 runs before any validation), then
validates, builds, and writes the dated CSV, overwriting any existing file at
that path. `resp` is the decoded response body. -/
def fetch_trading_data (resp : Option (List DataRow)) (output_file : String)
    (w : World) : World × Except String String :=
  let w1 : World := ⟨w.files, w.fetchCount + 1⟩
  match buildSnapshot resp with
  | .error e => (w1, .error e)
  | .ok snap =>
    (⟨fun p => if p = csvPath output_file then some (persistFile snap) else w1.files p,
      w1.fetchCount⟩,
     .ok (csvPath output_file))

/-- `load_and_filter_stocks` (`main.py` lines 115-145): existence check, then
the pure load-and-filter. -/
def load_and_filter_stocks (w : World) (path : String) (tech_sig : String) :
    Except String (List Record) :=
  match w.files path with
  | none => .error ("Data file not found: " ++ path)
  | some f => load_and_filter_file f tech_sig

/-- The `Union[List[Dict[str, Any]], str]` return type of `get_stocks`. -/
inductive GetStocksResult where
  | records (rs : List Record)
  | message (s : String)
deriving DecidableEq

/-- `get_stocks` (`main.py` lines 148-187): fetch-and-process for today's
dated file, then load and filter; an empty filter result and every
`TradingDataError` are both reported as a plain string. `today` stands for
`datetime.now().strftime("%Y-%m-%d")`. -/
def get_stocks (resp : Option (List DataRow)) (today : String) (tech_sig : String)
    (w : World) : World × GetStocksResult :=
  match fetch_trading_data resp today w with
  | (w1, .error e) => (w1, .message ("Unable to fetch stocks: " ++ e))
  | (w1, .ok path) =>
    match load_and_filter_stocks w1 path tech_sig with
    | .error e => (w1, .message ("Unable to fetch stocks: " ++ e))
    | .ok [] => (w1, .message ("No stocks found with " ++ tech_sig ++ " signal for today"))
    | .ok stocks => (w1, .records stocks)

/-- The tool names `main.py` registers on the MCP server via `@mcp.tool()`:
exactly `get_stocks` (line 148) and `get_recommendation_summary`
(line 190). -/
def exposedTools : List String := ["get_stocks", "get_recommendation_summary"]

/-! ### Auxiliary definitions used by the theorems -/

instance {ε α : Type} [DecidableEq ε] [DecidableEq α] : DecidableEq (Except ε α)
  | .error e, .error f => decidable_of_iff (e = f) (by simp)
  | .error _, .ok _ => isFalse (by simp)
  | .ok _, .error _ => isFalse (by simp)
  | .ok a, .ok b => decidable_of_iff (a = b) (by simp)

/-- A field string that `read_csv` hands back unchanged: not an NA token
(in particular not empty), not numeric, not boolean. -/
def safeStr (s : String) : Bool :=
  !isNA s && !isNumTok s && !boolTokens.contains s

/-- The six values `categorize_recommendation` can produce. -/
def categoryVocab : List String :=
  ["strong_sell", "sell", "neutral", "buy", "strong_buy", "unknown"]

/-- The names of the records of a `get_stocks` result (first field of each
returned record). -/
def resultNames : GetStocksResult → List Cell
  | .records rs => rs.map (fun r => (r.headD ("", Cell.null)).2)
  | .message _ => []

/-- A value array of full declared width: the given name, nulls everywhere
else, the given `Recommend.All` score in the last position. -/
def mkRow (name : Cell) (score : Cell) : List Cell :=
  name :: List.replicate 87 Cell.null ++ [score]

/-- A decoded upstream body whose `data` holds exactly the given value
arrays. -/
def respOfRows (rows : List (List Cell)) : Option (List DataRow) :=
  some (rows.map (fun r => ⟨some r⟩))

/-- The snapshot built from a decoded body, defaulting to the empty snapshot
on failure (used only on inputs where the build demonstrably succeeds). -/
def snapOf (resp : Option (List DataRow)) : Snapshot :=
  match buildSnapshot resp with
  | .ok s => s
  | .error _ => ⟨[], []⟩

/-- An empty file system and no fetches yet. -/
def emptyWorld : World := ⟨fun _ => none, 0⟩

/-- One-record body: name `AAA`, score 0.3 (category `buy`). -/
def respAAA : Option (List DataRow) := respOfRows [mkRow (.str "AAA") (.num (mkRat 3 10))]

/-- One-record body whose name is the string `"1"` (a numeric-looking
ticker), score 0.3. -/
def respName1 : Option (List DataRow) := respOfRows [mkRow (.str "1") (.num (mkRat 3 10))]

/-- One-record body: name `NEW`, score 0.3 (category `buy`). -/
def respNEW : Option (List DataRow) := respOfRows [mkRow (.str "NEW") (.num (mkRat 3 10))]

/-- One-record body: name `UNK`, missing score (category `unknown`). -/
def respUNK : Option (List DataRow) := respOfRows [mkRow (.str "UNK") Cell.null]

/-- The DataFrame `fetch_trading_data` holds right before `to_csv`: declared
header plus derived category column over already-aligned records (this is
what `buildSnapshot` returns once `buildRecords` has succeeded). -/
def mkSnapshot (recs : List (List Cell)) : Snapshot :=
  ⟨COLUMNS ++ ["recommendation_category"], addCategoryColumn recs⟩

/-- A world whose `tempDir` already holds a cache file for 2025-01-01: the
persisted snapshot of a single record named `OLD` with score 0.3. -/
def worldWithCache : World :=
  ⟨fun p => if p = csvPath "2025-01-01" then
      some (persistFile (snapOf (respOfRows [mkRow (.str "OLD") (.num (mkRat 3 10))])))
    else none,
   0⟩

/-! ### Classifier lemmas -/

/-- The `mkRat` threshold bounds, as plain fractions. -/
lemma mkRat_bounds :
    mkRat (-1) 2 = -1/2 ∧ mkRat (-1) 10 = -1/10
    ∧ mkRat 1 10 = 1/10 ∧ mkRat 1 2 = 1/2 := by
  norm_num [Rat.mkRat_eq_div]

/-- Evaluate the threshold scan on the concrete threshold table: a first-match
chain of inclusive bands. -/
lemma categorize_num_getD (q : ℚ) :
    categorize_recommendation (.num q) =
      (if -1 ≤ q ∧ q ≤ -1/2 then some "strong_sell"
       else if -1/2 ≤ q ∧ q ≤ -1/10 then some "sell"
       else if -1/10 ≤ q ∧ q ≤ 1/10 then some "neutral"
       else if 1/10 ≤ q ∧ q ≤ 1/2 then some "buy"
       else if 1/2 ≤ q ∧ q ≤ 1 then some "strong_buy"
       else none).getD "unknown" := by
  obtain ⟨h1, h2, h3, h4⟩ := mkRat_bounds
  show (scanBands q RECOMMENDATION_THRESHOLDS).getD "unknown" = _
  simp only [RECOMMENDATION_THRESHOLDS, scanBands, h1, h2, h3, h4]

/-- The source's first-match inclusive bands compute exactly the spec's
partition: an inclusive lower bound of a later band can only fire at a point
the previous band has already claimed. -/
lemma categorize_num_eq_spec (q : ℚ) :
    categorize_recommendation (.num q) = spec_category (.num q) := by
  rw [categorize_num_getD]
  simp only [spec_category]
  by_cases h1 : -1 ≤ q ∧ q ≤ -1/2
  · rw [if_pos h1, if_pos h1]; rfl
  · rw [if_neg h1, if_neg h1]
    by_cases h2 : -1/2 < q ∧ q ≤ -1/10
    · rw [if_pos ⟨le_of_lt h2.1, h2.2⟩, if_pos h2]; rfl
    · have h2' : ¬(-1/2 ≤ q ∧ q ≤ -1/10) := by
        rintro ⟨ha, hb⟩
        rcases eq_or_lt_of_le ha with he | hl
        · exact h1 ⟨by linarith, by linarith⟩
        · exact h2 ⟨hl, hb⟩
      rw [if_neg h2', if_neg h2]
      by_cases h3 : -1/10 < q ∧ q ≤ 1/10
      · rw [if_pos ⟨le_of_lt h3.1, h3.2⟩, if_pos h3]; rfl
      · have h3' : ¬(-1/10 ≤ q ∧ q ≤ 1/10) := by
          rintro ⟨ha, hb⟩
          rcases eq_or_lt_of_le ha with he | hl
          · exact h2 ⟨by linarith, by linarith⟩
          · exact h3 ⟨hl, hb⟩
        rw [if_neg h3', if_neg h3]
        by_cases h4 : 1/10 < q ∧ q ≤ 1/2
        · rw [if_pos ⟨le_of_lt h4.1, h4.2⟩, if_pos h4]; rfl
        · have h4' : ¬(1/10 ≤ q ∧ q ≤ 1/2) := by
            rintro ⟨ha, hb⟩
            rcases eq_or_lt_of_le ha with he | hl
            · exact h3 ⟨by linarith, by linarith⟩
            · exact h4 ⟨hl, hb⟩
          rw [if_neg h4', if_neg h4]
          by_cases h5 : 1/2 < q ∧ q ≤ 1
          · rw [if_pos ⟨le_of_lt h5.1, h5.2⟩, if_pos h5]; rfl
          · have h5' : ¬(1/2 ≤ q ∧ q ≤ 1) := by
              rintro ⟨ha, hb⟩
              rcases eq_or_lt_of_le ha with he | hl
              · exact h4 ⟨by linarith, by linarith⟩
              · exact h5 ⟨hl, hb⟩
            rw [if_neg h5', if_neg h5]
            rfl

/-- Scores outside `[-1, 1]` fall through every band. -/
lemma categorize_num_out_of_range (q : ℚ) (h : ¬(-1 ≤ q ∧ q ≤ 1)) :
    categorize_recommendation (.num q) = "unknown" := by
  rw [categorize_num_getD]
  rw [if_neg (by rintro ⟨ha, hb⟩; exact h ⟨ha, by linarith⟩)]
  rw [if_neg (by rintro ⟨ha, hb⟩; exact h ⟨by linarith, by linarith⟩)]
  rw [if_neg (by rintro ⟨ha, hb⟩; exact h ⟨by linarith, by linarith⟩)]
  rw [if_neg (by rintro ⟨ha, hb⟩; exact h ⟨by linarith, by linarith⟩)]
  rw [if_neg (by rintro ⟨ha, hb⟩; exact h ⟨by linarith, hb⟩)]
  rfl

/-- Every classifier output is one of the six category words. -/
lemma categorize_mem_vocab (c : Cell) :
    categorize_recommendation c ∈ categoryVocab := by
  cases c with
  | null => simp [categorize_recommendation, categoryVocab]
  | str s => simp [categorize_recommendation, categoryVocab]
  | boolean b => cases b <;> decide
  | num q =>
    rw [categorize_num_getD]
    split_ifs <;> simp [categoryVocab]

/-- C1: for every numeric score the classifier realizes the §4.3 threshold
table exactly (`spec_category`), with the boundary ownership −1.0, −0.5 →
strong_sell, −0.1 → sell, 0.1 → neutral, 0.5 → buy, 1.0 → strong_buy;
non-numeric, missing and out-of-range inputs give `unknown`. -/
theorem claim_C1_categorize_matches_threshold_table :
    (∀ q : ℚ, categorize_recommendation (.num q) = spec_category (.num q))
    ∧ (∀ q : ℚ, ¬(-1 ≤ q ∧ q ≤ 1) → categorize_recommendation (.num q) = "unknown")
    ∧ (∀ s : String, categorize_recommendation (.str s) = "unknown")
    ∧ categorize_recommendation .null = "unknown"
    ∧ categorize_recommendation (.num (-1)) = "strong_sell"
    ∧ categorize_recommendation (.num (-1/2)) = "strong_sell"
    ∧ categorize_recommendation (.num (-1/10)) = "sell"
    ∧ categorize_recommendation (.num (1/10)) = "neutral"
    ∧ categorize_recommendation (.num (1/2)) = "buy"
    ∧ categorize_recommendation (.num 1) = "strong_buy"
    ∧ categorize_recommendation (.num 2) = "unknown" :=
  ⟨categorize_num_eq_spec, categorize_num_out_of_range, fun _ => rfl, rfl,
   by rw [categorize_num_getD]; norm_num, by rw [categorize_num_getD]; norm_num,
   by rw [categorize_num_getD]; norm_num, by rw [categorize_num_getD]; norm_num,
   by rw [categorize_num_getD]; norm_num, by rw [categorize_num_getD]; norm_num,
   by rw [categorize_num_getD]; norm_num⟩

/-- Witness for C1: the out-of-range conjunct applied at the concrete score
2, with its hypothesis discharged there. -/
theorem claim_C1_witness :
    categorize_recommendation (.num 2) = "unknown" :=
  claim_C1_categorize_matches_threshold_table.2.1 2 (by norm_num)

/-- C9: Python booleans pass the numeric guard (`bool` is a subclass of
`int`), so `True` is classified as the number 1 and `False` as 0. -/
theorem claim_C9_booleans_are_numeric :
    categorize_recommendation (.boolean true) = "strong_buy"
    ∧ categorize_recommendation (.boolean false) = "neutral"
    ∧ ∀ b : Bool, categorize_recommendation (.boolean b)
        = (if b then "strong_buy" else "neutral") := by
  refine ⟨by decide, by decide, ?_⟩
  intro b
  cases b <;> decide

/-! ### Row Normalizer -/

/-- C6: the Row Normalizer fails exactly when the `data` key is absent, or
`data` is empty, or no element of `data` carries a `d` array; elements
lacking `d` are dropped silently and never cause an error by themselves. The
three concrete failing shapes of the spec are listed, together with the
success shape on any body with at least one surviving `d` array. -/
theorem claim_C6_normalize_failure_characterization :
    (∀ resp : Option (List DataRow),
      (∃ e, normalize resp = .error e) ↔
        (resp = none ∨ resp = some []
          ∨ ∃ l, resp = some l ∧ l.filterMap DataRow.d = []))
    ∧ normalize none = .error "Invalid response format from API"
    ∧ normalize (some []) = .error "No data returned from API"
    ∧ normalize (some [⟨none⟩]) = .error "No valid data rows found"
    ∧ (∀ l : List DataRow, l.filterMap DataRow.d ≠ [] →
        normalize (some l) = .ok (l.filterMap DataRow.d)) := by
  have hsucc : ∀ l : List DataRow, l.filterMap DataRow.d ≠ [] →
      normalize (some l) = .ok (l.filterMap DataRow.d) := by
    intro l h
    have hl : ¬l.isEmpty = true := by
      cases l with
      | nil => simp [List.filterMap] at h
      | cons a t => simp [List.isEmpty]
    have hd : ¬(l.filterMap DataRow.d).isEmpty = true := by
      simpa [List.isEmpty_iff] using h
    simp [normalize, hl, hd]
  refine ⟨?_, rfl, rfl, rfl, hsucc⟩
  intro resp
  cases resp with
  | none => exact ⟨fun _ => Or.inl rfl, fun _ => ⟨_, rfl⟩⟩
  | some l =>
    by_cases hl : l = []
    · subst hl
      exact ⟨fun _ => Or.inr (Or.inl rfl), fun _ => ⟨_, rfl⟩⟩
    · by_cases hd : l.filterMap DataRow.d = []
      · constructor
        · intro _
          exact Or.inr (Or.inr ⟨l, rfl, hd⟩)
        · intro _
          refine ⟨"No valid data rows found", ?_⟩
          have hl' : ¬l.isEmpty = true := by simpa [List.isEmpty_iff] using hl
          simp [normalize, hl', hd]
      · constructor
        · rintro ⟨e, he⟩
          rw [hsucc l hd] at he
          exact absurd he (by simp)
        · rintro (h | h | ⟨m, hm, hd'⟩)
          · exact absurd h (by simp)
          · exact absurd h (by simpa using hl)
          · rw [Option.some_inj] at hm
            subst hm
            exact absurd hd' hd

/-- Witness for C6: the success conjunct applied to a body with one `d`-less
element and one `d` array — the `d`-less element is dropped without error. -/
theorem claim_C6_witness :
    normalize (some [⟨none⟩, ⟨some [Cell.num 1]⟩]) = .ok [[Cell.num 1]] :=
  claim_C6_normalize_failure_characterization.2.2.2.2
    [⟨none⟩, ⟨some [Cell.num 1]⟩] (by decide)

/-! ### Dataset Builder -/

/-- Counterexample to C4: a single value array shorter than the declared
column count (here of length 1, against 89 declared columns) makes the
builder fail — pandas pads short rows only up to the longest row's width and
rejects the frame when that width differs from the declared column count. -/
theorem claim_C4_counterexample :
    buildRecords [[Cell.null]] = .error "Data processing failed" := by decide

/-- Helper: every row is bounded by the frame width. -/
lemma length_le_maxRowLen {rows : List (List Cell)} {r : List Cell}
    (hr : r ∈ rows) : r.length ≤ maxRowLen rows := by
  induction rows with
  | nil => cases hr
  | cons a t ih =>
    cases hr with
    | head => exact le_max_left _ _
    | tail _ hr => exact le_trans (ih hr) (le_max_right _ _)

/-- C4 amended: short value arrays are padded with trailing nulls only when
the longest array already has the declared width; then the builder produces
one full-width record per array, each extending its array with nulls. -/
theorem claim_C4_amended_padding (rows : List (List Cell))
    (h : maxRowLen rows = COLUMNS.length) :
    buildRecords rows = .ok (rows.map (padRow COLUMNS.length))
    ∧ (rows.map (padRow COLUMNS.length)).length = rows.length
    ∧ (∀ r ∈ rows,
        padRow COLUMNS.length r = r ++ List.replicate (COLUMNS.length - r.length) Cell.null
        ∧ (padRow COLUMNS.length r).length = COLUMNS.length) := by
  refine ⟨by simp [buildRecords, h], List.length_map _ _, ?_⟩
  intro r hr
  have hle : r.length ≤ COLUMNS.length := h ▸ length_le_maxRowLen hr
  refine ⟨rfl, ?_⟩
  simp [padRow, Nat.add_sub_cancel' hle]

/-- Witness for C4 amended: one full-width array next to a one-cell array;
the short one comes back padded to the declared width with trailing nulls. -/
theorem claim_C4_amended_padding_witness :
    buildRecords [List.replicate 89 (Cell.num 1), [Cell.num 1]]
      = .ok [List.replicate 89 (Cell.num 1),
             Cell.num 1 :: List.replicate 88 Cell.null] := by
  have h := (claim_C4_amended_padding
    [List.replicate 89 (Cell.num 1), [Cell.num 1]] (by decide)).1
  rw [h]
  decide

/-! ### CSV round-trip lemmas -/

/-- An NA field decodes to null no matter what column it sits in. -/
lemma decodeCell_na {lines : List (List String)} {j : ℕ} {s : String}
    (h : isNA s = true) : decodeCell lines j s = .null := by
  simp [decodeCell, h]

/-- Unpack `safeStr`. -/
lemma safeStr_spec {s : String} (h : safeStr s = true) :
    isNA s = false ∧ isNumTok s = false ∧ s ∉ boolTokens := by
  have h' := h
  simp only [safeStr, Bool.and_eq_true, Bool.not_eq_true'] at h'
  exact ⟨h'.1.1, h'.1.2, by simpa using h'.2⟩

/-- A safe field that actually occurs in its column decodes to itself: its
own presence prevents the column from being inferred numeric or boolean. -/
lemma decodeCell_safe {lines : List (List String)} {j : ℕ} {s : String}
    (hmem : s ∈ columnOf lines j) (hs : safeStr s = true) :
    decodeCell lines j s = .str s := by
  obtain ⟨hna, hnum, hbool⟩ := safeStr_spec hs
  have hfil : s ∈ (columnOf lines j).filter (fun t => !isNA t) :=
    List.mem_filter.mpr ⟨hmem, by simp [hna]⟩
  have hcolnum : colIsNumeric (columnOf lines j) = false :=
    List.all_eq_false.mpr ⟨s, hfil, by simp [hnum]⟩
  have hcolbool : colIsBool (columnOf lines j) = false :=
    List.all_eq_false.mpr ⟨s, hfil, by simp [hbool]⟩
  simp [decodeCell, hna, hcolnum, hcolbool]

/-- Reading cell `k` of a decoded row evaluates `read_csv`'s inference on the
corresponding raw field. -/
lemma decoded_getD {lines : List (List String)} {row : List String} {k : ℕ}
    (hk : k < row.length) :
    (row.mapIdx (fun j s => decodeCell lines j s)).getD k Cell.null
      = decodeCell lines k (row.getD k "") := by
  rw [List.getD_eq_getElem?_getD, List.getElem?_mapIdx, List.getElem?_eq_getElem hk,
    List.getD_eq_getElem?_getD, List.getElem?_eq_getElem hk]
  rfl

/-- Cell `k` of an encoded row is the encoding of cell `k`. -/
lemma encode_getD {r : List Cell} {k : ℕ} (hk : k < r.length) :
    (r.map encodeCell).getD k "" = encodeCell (r.getD k Cell.null) := by
  rw [List.getD_eq_getElem?_getD, List.getElem?_map, List.getElem?_eq_getElem hk,
    List.getD_eq_getElem?_getD, List.getElem?_eq_getElem hk]
  rfl

/-- Field `j` of any line of the file occurs in column `j`. -/
lemma getD_mem_columnOf {lines : List (List String)} {row : List String}
    (hmem : row ∈ lines) (j : ℕ) : row.getD j "" ∈ columnOf lines j :=
  List.mem_map.mpr ⟨row, hmem, rfl⟩

/-- Helper for `decoded_cell_roundtrip`: the encoded form of a safe string
cell occurs in its own column. -/
lemma encoded_str_mem_column {records : List (List Cell)} {r' : List Cell}
    {k : ℕ} {s : String} (hmem : r' ∈ records) (hk : k < r'.length)
    (hstr : r'.getD k Cell.null = Cell.str s) :
    s ∈ columnOf (records.map (fun r => r.map encodeCell)) k := by
  have hline : r'.map encodeCell ∈ records.map (fun r => r.map encodeCell) :=
    List.mem_map.mpr ⟨r', hmem, rfl⟩
  have hcol := getD_mem_columnOf hline k
  rwa [encode_getD hk, hstr] at hcol

/-- The last cell of a record extended by one element. -/
lemma getD_concat_length {l : List Cell} {c : Cell} :
    (l ++ [c]).getD l.length Cell.null = c := by
  rw [List.getD_eq_getElem?_getD, List.getElem?_concat_length]
  rfl

/-- An extended record agrees with the original on the original's indices. -/
lemma getD_append_left {l : List Cell} {t : List Cell} {k : ℕ}
    (hk : k < l.length) :
    (l ++ t).getD k Cell.null = l.getD k Cell.null := by
  rw [List.getD_eq_getElem?_getD, List.getElem?_append, if_pos hk,
    List.getD_eq_getElem?_getD]

/-- The six category words survive `read_csv` unchanged: none is an NA,
numeric or boolean token. -/
lemma vocab_safe : ∀ w ∈ categoryVocab, safeStr w = true := by decide

/-- Whatever the classifier outputs is a CSV-stable field. -/
lemma categorize_safe (c : Cell) :
    safeStr (categorize_recommendation c) = true :=
  vocab_safe _ (categorize_mem_vocab c)

/-- Shape of a record produced by the derived-category step. -/
lemma addCategory_shape {recs : List (List Cell)} {r' : List Cell}
    (h : r' ∈ addCategoryColumn recs) :
    ∃ r ∈ recs,
      r' = r ++ [Cell.str (categorize_recommendation (r.getD recAllIdx Cell.null))] := by
  obtain ⟨r, hr, he⟩ := List.mem_map.mp h
  exact ⟨r, hr, he.symm⟩

/-- Loading what was just persisted: same header, records decoded from the
encoded lines. -/
lemma loadFile_persist (snap : Snapshot) :
    loadFile (persistFile snap)
      = ⟨snap.header, decodeLines (snap.records.map (fun r => r.map encodeCell))⟩ := rfl

/-- Per-cell round trip through the persisted file: a cell that is null, or a
string the reader will not reinterpret, comes back unchanged. -/
lemma decoded_cell_roundtrip {records : List (List Cell)} {r' : List Cell} {k : ℕ}
    (hmem : r' ∈ records) (hk : k < r'.length)
    (hcell : r'.getD k Cell.null = Cell.null
      ∨ ∃ s, r'.getD k Cell.null = Cell.str s ∧ safeStr s = true) :
    ((r'.map encodeCell).mapIdx
        (fun j s => decodeCell (records.map (fun r => r.map encodeCell)) j s)).getD k Cell.null
      = r'.getD k Cell.null := by
  have hk' : k < (r'.map encodeCell).length := by simpa using hk
  rw [decoded_getD hk', encode_getD hk]
  rcases hcell with hnull | ⟨s, hstr, hsafe⟩
  · rw [hnull]
    exact decodeCell_na rfl
  · rw [hstr]
    exact decodeCell_safe (encoded_str_mem_column hmem hk hstr) hsafe

/-- The records loaded back from a persisted snapshot, as a map over the
original records. -/
lemma loaded_records_eq (records : List (List Cell)) :
    decodeLines (records.map (fun r => r.map encodeCell))
      = records.map (fun r' =>
          (r'.map encodeCell).mapIdx
            (fun j s => decodeCell (records.map (fun r => r.map encodeCell)) j s)) := by
  unfold decodeLines
  rw [List.map_map]
  rfl

/-! ### Snapshot schema invariant -/

/-- Inversion of a successful DataFrame construction: the records are the
padded rows, every one of declared width. -/
lemma buildRecords_ok_shape {rows recs : List (List Cell)}
    (hbr : buildRecords rows = .ok recs) :
    recs = rows.map (padRow COLUMNS.length)
    ∧ ∀ r ∈ recs, r.length = COLUMNS.length := by
  unfold buildRecords at hbr
  split_ifs at hbr with hmax
  cases hbr
  refine ⟨rfl, ?_⟩
  intro r hr
  obtain ⟨r0, hr0, rfl⟩ := List.mem_map.mp hr
  have hle := length_le_maxRowLen hr0
  simp only [padRow, List.length_append, List.length_replicate]
  omega

/-- Appending the derived category column extends every record by one cell. -/
lemma addCategory_length {recs : List (List Cell)}
    (hlen : ∀ r ∈ recs, r.length = COLUMNS.length) :
    ∀ r' ∈ addCategoryColumn recs, r'.length = COLUMNS.length + 1 := by
  intro r' h
  obtain ⟨r, hr, rfl⟩ := addCategory_shape h
  simp [hlen r hr]

/-- Decoding preserves the width of every line. -/
lemma loaded_length {records : List (List Cell)} :
    ∀ r ∈ decodeLines (records.map (fun rr => rr.map encodeCell)),
      ∃ r' ∈ records, r.length = r'.length := by
  rw [loaded_records_eq]
  intro r h
  obtain ⟨r', hr', he⟩ := List.mem_map.mp h
  refine ⟨r', hr', ?_⟩
  rw [← he]
  simp [List.length_mapIdx]

/-- Inversion of a successful end-to-end build. -/
lemma buildSnapshot_ok_shape {resp : Option (List DataRow)} {snap : Snapshot}
    (hb : buildSnapshot resp = .ok snap) :
    ∃ recs, snap = mkSnapshot recs ∧ ∀ r ∈ recs, r.length = COLUMNS.length := by
  unfold buildSnapshot at hb
  split at hb
  · exact absurd hb (by simp)
  · split at hb
    · exact absurd hb (by simp)
    · rename_i recs hbr
      obtain ⟨_, hlen⟩ := buildRecords_ok_shape hbr
      cases hb
      exact ⟨recs, rfl, hlen⟩

/-- C7: a successfully built snapshot's header is the declared column list
with `recommendation_category` appended last; every record is a full-width
base row (one cell per declared column, in order) plus the one derived cell;
the persisted file starts with that header line; and header and record
widths survive the persist/load round trip. -/
theorem claim_C7_schema_invariant (resp : Option (List DataRow)) (snap : Snapshot)
    (hb : buildSnapshot resp = .ok snap) :
    snap.header = COLUMNS ++ ["recommendation_category"]
    ∧ (∀ r ∈ snap.records, ∃ base c, r = base ++ [c] ∧ base.length = COLUMNS.length)
    ∧ (persistFile snap).head? = some (COLUMNS ++ ["recommendation_category"])
    ∧ (loadFile (persistFile snap)).header = COLUMNS ++ ["recommendation_category"]
    ∧ (∀ r ∈ (loadFile (persistFile snap)).records, r.length = COLUMNS.length + 1) := by
  obtain ⟨recs, rfl, hlen⟩ := buildSnapshot_ok_shape hb
  refine ⟨rfl, ?_, rfl, rfl, ?_⟩
  · intro r hr
    obtain ⟨r0, hr0, rfl⟩ := addCategory_shape hr
    exact ⟨r0, _, rfl, hlen r0 hr0⟩
  · intro r hr
    obtain ⟨r', hr', he⟩ := loaded_length r hr
    rw [he]
    exact addCategory_length hlen r' hr'

set_option maxRecDepth 8192 in
/-- Witness for C7: the invariant applied to a concrete one-record body. -/
theorem claim_C7_schema_invariant_witness :
    (snapOf (respOfRows [mkRow (.str "AAA") (.num (mkRat 3 10))])).header
      = COLUMNS ++ ["recommendation_category"] :=
  (claim_C7_schema_invariant (respOfRows [mkRow (.str "AAA") (.num (mkRat 3 10))])
    (snapOf (respOfRows [mkRow (.str "AAA") (.num (mkRat 3 10))])) (by decide)).1

/-! ### Persist/load round trip (C5) -/

/-- Column `k` of a persisted-then-loaded record set equals the original
column, provided every cell of that column is null or a CSV-stable string. -/
lemma roundtrip_column (records : List (List Cell)) (k : ℕ)
    (hcol : ∀ r' ∈ records, k < r'.length
      ∧ (r'.getD k Cell.null = Cell.null
        ∨ ∃ s, r'.getD k Cell.null = Cell.str s ∧ safeStr s = true)) :
    (decodeLines (records.map (fun r => r.map encodeCell))).map (fun r => r.getD k Cell.null)
      = records.map (fun r => r.getD k Cell.null) := by
  rw [loaded_records_eq, List.map_map]
  apply List.map_congr_left
  intro r' hmem
  simp only [Function.comp_apply]
  exact decoded_cell_roundtrip hmem (hcol r' hmem).1 (hcol r' hmem).2

/-- Counterexample to C5: build from a single value array whose `name` is the
string `"1"`; after persisting and loading, `read_csv` type inference turns
the name column into the number 1, so the loaded name column differs from the
built one. -/
theorem claim_C5_counterexample :
    ((loadFile (persistFile (snapOf respName1))).records.map
        (fun r => r.getD 0 Cell.null) = [Cell.num 1])
    ∧ ((snapOf respName1).records.map (fun r => r.getD 0 Cell.null) = [Cell.str "1"])
    ∧ (decide ((Cell.num 1 : Cell) = Cell.str "1") = false) := by
  refine ⟨by decide, by decide, by decide⟩

/-- C5 amended: persisting a built snapshot and loading it back preserves the
`recommendation_category` column always — whatever the cells of the other
columns hold — and preserves the `name` column whenever each name cell is
null or a string that `read_csv` does not reinterpret (not numeric-looking,
not a boolean token, not an NA token). -/
theorem claim_C5_amended_roundtrip (recs : List (List Cell))
    (hlen : ∀ r ∈ recs, r.length = COLUMNS.length) :
    ((loadFile (persistFile (mkSnapshot recs))).records.map
          (fun r => r.getD COLUMNS.length Cell.null)
        = (mkSnapshot recs).records.map (fun r => r.getD COLUMNS.length Cell.null))
    ∧ ((∀ r ∈ recs, r.getD 0 Cell.null = Cell.null
          ∨ ∃ s, r.getD 0 Cell.null = Cell.str s ∧ safeStr s = true) →
        (loadFile (persistFile (mkSnapshot recs))).records.map (fun r => r.getD 0 Cell.null)
          = (mkSnapshot recs).records.map (fun r => r.getD 0 Cell.null)) := by
  have hpos : 0 < COLUMNS.length := by decide
  constructor
  · exact roundtrip_column (addCategoryColumn recs) COLUMNS.length (by
      intro r' hmem
      obtain ⟨r, hr, rfl⟩ := addCategory_shape hmem
      have hre : r.length = COLUMNS.length := hlen r hr
      refine ⟨by simp [hre], Or.inr ?_⟩
      refine ⟨categorize_recommendation (r.getD recAllIdx Cell.null), ?_, categorize_safe _⟩
      rw [← hre]
      exact getD_concat_length)
  · intro hname
    exact roundtrip_column (addCategoryColumn recs) 0 (by
      intro r' hmem
      obtain ⟨r, hr, rfl⟩ := addCategory_shape hmem
      refine ⟨by simp [hlen r hr], ?_⟩
      rw [getD_append_left (by rw [hlen r hr]; exact hpos)]
      exact hname r hr)

/-- Witness for C5 amended: both conjuncts at concrete inputs. The category
column round-trips even for the numeric-name snapshot of the counterexample
(only its `name` column is damaged); the name column round-trips for the
stable name `AAA`, the safe-name hypothesis discharged there. -/
theorem claim_C5_amended_roundtrip_witness :
    ((loadFile (persistFile (mkSnapshot [mkRow (.str "1") (.num (mkRat 3 10))]))).records.map
        (fun r => r.getD COLUMNS.length Cell.null)
      = (mkSnapshot [mkRow (.str "1") (.num (mkRat 3 10))]).records.map
        (fun r => r.getD COLUMNS.length Cell.null))
    ∧ ((loadFile (persistFile (mkSnapshot [mkRow (.str "AAA") (.num (mkRat 3 10))]))).records.map
        (fun r => r.getD 0 Cell.null)
      = (mkSnapshot [mkRow (.str "AAA") (.num (mkRat 3 10))]).records.map
        (fun r => r.getD 0 Cell.null)) :=
  ⟨(claim_C5_amended_roundtrip [mkRow (.str "1") (.num (mkRat 3 10))] (by decide)).1,
   (claim_C5_amended_roundtrip [mkRow (.str "AAA") (.num (mkRat 3 10))] (by decide)).2
    (fun r hr => by
      rw [List.mem_singleton.mp hr]
      exact Or.inr ⟨"AAA", rfl, by decide⟩)⟩

/-! ### Category filter (C3) -/

/-- `cellEqStr` holds only on an equal string cell. -/
lemma cellEqStr_true {c : Cell} {s : String} (h : cellEqStr c s = true) :
    c = Cell.str s := by
  cases c <;> simp_all [cellEqStr]

/-- Indexing a zipped record pairs the header name with the row cell. -/
lemma zip_getD {l1 : List String} {l2 : List Cell} {k : ℕ}
    (h1 : k < l1.length) (h2 : k < l2.length) :
    (l1.zip l2).getD k ("", Cell.null) = (l1.getD k "", l2.getD k Cell.null) := by
  have hz : k < (l1.zip l2).length := by
    rw [List.length_zip]
    exact lt_min h1 h2
  rw [List.getD_eq_getElem?_getD, List.getElem?_eq_getElem hz,
    List.getD_eq_getElem?_getD, List.getElem?_eq_getElem h1,
    List.getD_eq_getElem?_getD, List.getElem?_eq_getElem h2]
  simp [List.getElem_zip]

/-- The category cell of a built record is the classifier's output on its
`Recommend.All` cell. -/
lemma addCategory_cat_cell {r : List Cell} (hr : r.length = COLUMNS.length) :
    (r ++ [Cell.str (categorize_recommendation (r.getD recAllIdx Cell.null))]).getD
        COLUMNS.length Cell.null
      = Cell.str (categorize_recommendation (r.getD recAllIdx Cell.null)) := by
  rw [← hr]
  exact getD_concat_length

/-- The category cell survives the persist/load round trip, record by
record. -/
lemma loaded_cat_cell {recs : List (List Cell)}
    (hlen : ∀ r ∈ recs, r.length = COLUMNS.length) {r' : List Cell}
    (hmem : r' ∈ addCategoryColumn recs) :
    ((r'.map encodeCell).mapIdx
        (fun j s => decodeCell ((addCategoryColumn recs).map (fun r => r.map encodeCell)) j s)).getD
        COLUMNS.length Cell.null
      = r'.getD COLUMNS.length Cell.null := by
  obtain ⟨r, hr, rfl⟩ := addCategory_shape hmem
  have hre := hlen r hr
  refine decoded_cell_roundtrip hmem (by simp [hre]) (Or.inr ?_)
  exact ⟨categorize_recommendation (r.getD recAllIdx Cell.null),
    addCategory_cat_cell hre, categorize_safe _⟩

/-- Counterexample to C3: filtering the persisted `AAA` snapshot for `buy`
returns the matching record with all 90 columns — among them `description` —
not a two-field `{name, recommendation_category}` projection. -/
theorem claim_C3_counterexample :
    (((load_and_filter_file (persistFile (snapOf respAAA)) "buy").toOption.getD []).map
        List.length = [90])
    ∧ (((load_and_filter_file (persistFile (snapOf respAAA)) "buy").toOption.getD []).headD []).getD
        0 ("", Cell.null) = ("name", Cell.str "AAA")
    ∧ ("description", Cell.null) ∈
        ((load_and_filter_file (persistFile (snapOf respAAA)) "buy").toOption.getD []).headD [] :=
  ⟨by decide, by decide, by decide⟩

/-- C3 amended: `load_and_filter_stocks` returns exactly the records whose
derived category equals the requested signal — one output record per matching
input record — but each returned record keeps the full declared column list
plus `recommendation_category` (a `to_dict(orient="records")` row), rather
than a two-field projection; its category field equals the requested
signal. -/
theorem claim_C3_amended_filter_full_records (recs : List (List Cell)) (sig : String)
    (hlen : ∀ r ∈ recs, r.length = COLUMNS.length) :
    ∃ out, load_and_filter_file (persistFile (mkSnapshot recs)) sig = .ok out
      ∧ out.length = (recs.filter
          (fun r => categorize_recommendation (r.getD recAllIdx Cell.null) == sig)).length
      ∧ (∀ rec ∈ out, rec.map Prod.fst = COLUMNS ++ ["recommendation_category"])
      ∧ (∀ rec ∈ out,
          rec.getD COLUMNS.length ("", Cell.null)
            = ("recommendation_category", Cell.str sig)) := by
  classical
  set header : List String := COLUMNS ++ ["recommendation_category"] with hheader
  set records : List (List Cell) := addCategoryColumn recs with hrecords
  set lines : List (List String) := records.map (fun r => r.map encodeCell) with hlines
  set D : List Cell → List Cell := fun r' =>
    (r'.map encodeCell).mapIdx (fun j s => decodeCell lines j s) with hD
  have hdrc : header.contains "recommendation_category" = true := by decide
  have hidx : header.indexOf "recommendation_category" = COLUMNS.length := by decide
  -- run the function down to the filter-and-zip expression
  have hrun : load_and_filter_file (persistFile (mkSnapshot recs)) sig
      = .ok (((decodeLines lines).filter
            (fun r => cellEqStr (r.getD COLUMNS.length Cell.null) sig)).map
          (fun r => header.zip r)) := by
    unfold load_and_filter_file
    rw [loadFile_persist]
    simp only [mkSnapshot, hdrc, hidx, Bool.not_true, Bool.false_eq_true, if_false, ite_false]
  -- rewrite the filter through the three maps down to the raw records
  have hdl : decodeLines lines = records.map D := loaded_records_eq records
  have hfil1 : (records.map D).filter
        (fun r => cellEqStr (r.getD COLUMNS.length Cell.null) sig)
      = (records.filter
          (fun r' => cellEqStr (r'.getD COLUMNS.length Cell.null) sig)).map D := by
    rw [List.filter_map]
    congr 1
    apply List.filter_congr
    intro r' hmem
    simp only [Function.comp_apply]
    rw [loaded_cat_cell hlen hmem]
  have hfil2 : records.filter (fun r' => cellEqStr (r'.getD COLUMNS.length Cell.null) sig)
      = (recs.filter
          (fun r => categorize_recommendation (r.getD recAllIdx Cell.null) == sig)).map
        (fun r => r ++ [Cell.str (categorize_recommendation (r.getD recAllIdx Cell.null))]) := by
    rw [hrecords]
    unfold addCategoryColumn
    rw [List.filter_map]
    congr 1
    apply List.filter_congr
    intro r hr
    simp only [Function.comp_apply]
    rw [addCategory_cat_cell (hlen r hr)]
    rfl
  refine ⟨_, hrun, ?_, ?_, ?_⟩
  · rw [hdl, hfil1, hfil2]
    simp
  · intro rec hrec
    rw [hdl, hfil1] at hrec
    obtain ⟨lr, hlr, rfl⟩ := List.mem_map.mp hrec
    obtain ⟨lr0, hlr0, rfl⟩ := List.mem_map.mp hlr
    have hlr0len : lr0.length = COLUMNS.length + 1 :=
      addCategory_length hlen lr0 (List.mem_of_mem_filter hlr0)
    have hDlen : (D lr0).length = COLUMNS.length + 1 := by
      simp [hD, List.length_mapIdx, hlr0len]
    apply List.map_fst_zip
    rw [hDlen]
    simp [hheader]
  · intro rec hrec
    rw [hdl, hfil1] at hrec
    obtain ⟨lr, hlr, rfl⟩ := List.mem_map.mp hrec
    obtain ⟨lr0, hlr0, rfl⟩ := List.mem_map.mp hlr
    have hmem0 : lr0 ∈ records := List.mem_of_mem_filter hlr0
    have hmem0' : lr0 ∈ addCategoryColumn recs := hmem0
    have hpred := (List.mem_filter.mp hlr0).2
    have hcell : (D lr0).getD COLUMNS.length Cell.null = Cell.str sig := by
      simp only [hD, hlines, hrecords]
      rw [loaded_cat_cell hlen hmem0']
      exact cellEqStr_true hpred
    have hlr0len : lr0.length = COLUMNS.length + 1 :=
      addCategory_length hlen lr0 hmem0
    have hDlen : (D lr0).length = COLUMNS.length + 1 := by
      simp [hD, List.length_mapIdx, hlr0len]
    have hhlen : header.length = COLUMNS.length + 1 := by simp [hheader]
    have h1 : COLUMNS.length < header.length := by omega
    have h2 : COLUMNS.length < (D lr0).length := by omega
    rw [zip_getD h1 h2, hcell]
    have hh : header.getD COLUMNS.length "" = "recommendation_category" := by
      rw [hheader]
      decide
    rw [hh]

/-- Witness for C3 amended: the filter applied to the concrete `AAA` record
requesting `buy`; hypotheses discharged by evaluation. -/
theorem claim_C3_amended_filter_full_records_witness :
    ∃ out, load_and_filter_file
        (persistFile (mkSnapshot [mkRow (.str "AAA") (.num (mkRat 3 10))])) "buy" = .ok out
      ∧ out.length = ([mkRow (.str "AAA") (.num (mkRat 3 10))].filter
          (fun r => categorize_recommendation (r.getD recAllIdx Cell.null) == "buy")).length
      ∧ (∀ rec ∈ out, rec.map Prod.fst = COLUMNS ++ ["recommendation_category"])
      ∧ (∀ rec ∈ out,
          rec.getD COLUMNS.length ("", Cell.null)
            = ("recommendation_category", Cell.str "buy")) :=
  claim_C3_amended_filter_full_records [mkRow (.str "AAA") (.num (mkRat 3 10))] "buy"
    (by decide)

/-! ### Effectful pipeline (C2, C10) -/

/-- Every call to `fetch_trading_data` performs the network round trip — the
POST happens before any cache or validation logic (there is none). -/
lemma fetch_world_count (resp : Option (List DataRow)) (f : String) (w : World) :
    (fetch_trading_data resp f w).1.fetchCount = w.fetchCount + 1 := by
  unfold fetch_trading_data
  cases hb : buildSnapshot resp <;> rfl

/-- Reduce `get_stocks` to its load-and-filter branching once the fetch is
known to have succeeded. -/
lemma get_stocks_eq_ok (resp : Option (List DataRow)) (today sig : String)
    (w w1 : World) (path : String)
    (hf : fetch_trading_data resp today w = (w1, .ok path)) :
    get_stocks resp today sig w =
      match load_and_filter_stocks w1 path sig with
      | .error e => (w1, .message ("Unable to fetch stocks: " ++ e))
      | .ok [] => (w1, .message ("No stocks found with " ++ sig ++ " signal for today"))
      | .ok stocks => (w1, .records stocks) := by
  unfold get_stocks
  rw [hf]

/-- `get_stocks` returns the world produced by its fetch. -/
lemma get_stocks_world (resp : Option (List DataRow)) (today sig : String) (w : World) :
    (get_stocks resp today sig w).1 = (fetch_trading_data resp today w).1 := by
  rcases hf : fetch_trading_data resp today w with ⟨w1, r⟩
  cases r with
  | error e =>
    unfold get_stocks
    rw [hf]
  | ok path =>
    rw [get_stocks_eq_ok resp today sig w w1 path hf]
    rcases load_and_filter_stocks w1 path sig with e | stocks
    · rfl
    · cases stocks <;> rfl

/-- Counterexample to C2: a world whose `tempDir` already holds today's cache
file (one `OLD` record). `get_stocks` still performs a network fetch
(`fetchCount` goes from 0 to 1) and returns the freshly fetched `NEW` data,
not the cached `OLD` data that is demonstrably sitting in the file. -/
theorem claim_C2_counterexample :
    (worldWithCache.files (csvPath "2025-01-01")).isSome = true
    ∧ (loadFile ((worldWithCache.files (csvPath "2025-01-01")).getD [])).records.map
        (fun r => r.getD 0 Cell.null) = [Cell.str "OLD"]
    ∧ (get_stocks respNEW "2025-01-01" "buy" worldWithCache).1.fetchCount
        = worldWithCache.fetchCount + 1
    ∧ resultNames (get_stocks respNEW "2025-01-01" "buy" worldWithCache).2
        = [Cell.str "NEW"] :=
  ⟨by decide, by decide, by decide, by decide⟩

/-- C2 amended: the pipeline never consults the cache before fetching: every
`get_stocks` call — whatever the date and whatever is already on disk —
performs exactly one network fetch, and two calls for the same date perform
two. -/
theorem claim_C2_amended_always_fetches (resp resp2 : Option (List DataRow))
    (today sig : String) (w : World) :
    (get_stocks resp today sig w).1.fetchCount = w.fetchCount + 1
    ∧ (get_stocks resp2 today sig (get_stocks resp today sig w).1).1.fetchCount
        = w.fetchCount + 2 := by
  have h1 : ∀ (r : Option (List DataRow)) (w' : World),
      (get_stocks r today sig w').1.fetchCount = w'.fetchCount + 1 := by
    intro r w'
    rw [get_stocks_world, fetch_world_count]
  refine ⟨h1 resp w, ?_⟩
  rw [h1, h1]

/-- C10: whenever the fetch-and-build succeeds but no record matches the
requested signal, `get_stocks` returns the plain string
`"No stocks found with {tech_sig} signal for today"` — the same `str` arm of
the `Union` return type that carries error messages. -/
theorem claim_C10_empty_result_message (resp : Option (List DataRow))
    (today sig : String) (w : World) (snap : Snapshot)
    (hb : buildSnapshot resp = .ok snap)
    (hf : load_and_filter_file (persistFile snap) sig = .ok []) :
    (get_stocks resp today sig w).2
      = .message ("No stocks found with " ++ sig ++ " signal for today") := by
  have hfd : fetch_trading_data resp today w
      = (⟨fun p => if p = csvPath today then some (persistFile snap) else w.files p,
          w.fetchCount + 1⟩, .ok (csvPath today)) := by
    unfold fetch_trading_data
    rw [hb]
  have hls : load_and_filter_stocks
      ⟨fun p => if p = csvPath today then some (persistFile snap) else w.files p,
        w.fetchCount + 1⟩
      (csvPath today) sig = .ok [] := by
    unfold load_and_filter_stocks
    rw [show (World.mk
        (fun p => if p = csvPath today then some (persistFile snap) else w.files p)
        (w.fetchCount + 1)).files (csvPath today) = some (persistFile snap) from if_pos rfl]
    exact hf
  rw [get_stocks_eq_ok resp today sig w _ _ hfd, hls]

set_option maxRecDepth 8192 in
/-- Witness for C10: the concrete `UNK` record (category `unknown`) filtered
for `buy` yields the empty result, and `get_stocks` answers with the
not-found string. -/
theorem claim_C10_empty_result_message_witness :
    (get_stocks respUNK "2025-01-01" "buy" emptyWorld).2
      = .message ("No stocks found with " ++ "buy" ++ " signal for today") :=
  claim_C10_empty_result_message respUNK "2025-01-01" "buy" emptyWorld
    (snapOf respUNK) (by decide) (by decide)

/-! ### Exposed tools (C8) -/

/-- Counterexample to C8: the server registers no `get_technical_values`
tool. -/
theorem claim_C8_counterexample :
    exposedTools.contains "get_technical_values" = false := by decide

/-- C8 amended: the only public operations are `get_stocks` and
`get_recommendation_summary`; `TECHNICAL_COLUMNS` is declared (15 indicator
columns) but no exposed ticker-projection operation exists. -/
theorem claim_C8_amended_no_technical_tool :
    exposedTools.length = 2
    ∧ exposedTools.contains "get_stocks" = true
    ∧ exposedTools.contains "get_recommendation_summary" = true
    ∧ exposedTools.contains "get_technical_values" = false
    ∧ TECHNICAL_COLUMNS.length = 15 := by decide

end TradingViewMCP
